import Mathlib

/-
Shallow embedding of the adaptivekind/skills repository:
  src/skills/commit/scripts/pre-commit.py
  src/skills/commit/scripts/uncommitted-changes.py
  src/common/git/git.py
  src/common/stats/stats.py
The Python string operations the scripts use are modelled character-exactly
on List Char / String (with executable helper recursions, so that concrete
runs evaluate inside the kernel); external git command results are threaded
through an explicit environment record.
-/

/-- Python whitespace for str.strip and str.split with no argument:
space, tab, newline, carriage return, vertical tab, form feed. -/
def isPyWs (c : Char) : Bool :=
  c = ' ' || c = '\t' || c = '\n' || c = '\r' || c = '\x0b' || c = '\x0c'

/-- Python str.strip with no argument: remove leading and trailing whitespace. -/
def pyStrip (s : String) : String :=
  String.mk (((s.toList.dropWhile isPyWs).reverse.dropWhile isPyWs).reverse)

/-- Python str.split(sep) for a one-character separator, worker: Python keeps
empty pieces, and splitting the empty string yields one empty piece. -/
def pySplitCharAux (sep : Char) : List Char → List Char → List String
  | [], acc => [String.mk acc.reverse]
  | c :: rest, acc =>
      if c = sep then String.mk acc.reverse :: pySplitCharAux sep rest []
      else pySplitCharAux sep rest (c :: acc)

/-- Python str.split(sep) for a one-character separator. -/
def pySplitChar (sep : Char) (s : String) : List String :=
  pySplitCharAux sep s.toList []

/-- Whether the first character list begins with the second one. -/
def charsStartWith : List Char → List Char → Bool
  | _, [] => true
  | [], _ :: _ => false
  | c :: cs, p :: ps => c = p && charsStartWith cs ps

/-- Whether the first character list contains the second as a contiguous run. -/
def charsContain : List Char → List Char → Bool
  | [], pat => pat.isEmpty
  | c :: cs, pat => charsStartWith (c :: cs) pat || charsContain cs pat

/-- Python str.startswith. -/
def strStartsWith (s pre : String) : Bool :=
  charsStartWith s.toList pre.toList

/-- Python substring containment, the expression sub in s. -/
def strContains (s pat : String) : Bool :=
  charsContain s.toList pat.toList

/-- Python string truthiness test, not s. -/
def strIsEmpty (s : String) : Bool :=
  s.toList.isEmpty

/-- os.path.basename: the part of the path after the last slash. -/
def pyBasename (p : String) : String :=
  String.mk ((p.toList.reverse.takeWhile (fun c => c ≠ '/')).reverse)

/-- posixpath.dirname: the text before the last slash; trailing slashes are
stripped from it unless it consists only of slashes; empty when no slash. -/
def pyDirname (p : String) : String :=
  let cs := p.toList
  let head := (cs.reverse.dropWhile (fun c => c ≠ '/')).reverse
  if head.isEmpty then ""
  else if head.all (fun c => c = '/') then String.mk head
  else String.mk ((head.reverse.dropWhile (fun c => c = '/')).reverse)

/-- os.path.splitext applied to a bare filename (what the scripts feed it:
os.path.basename output), keeping the root: the extension begins at the last
dot, except that a filename whose characters before that dot are all dots
(such as a leading-dot file like .gitignore) is not split. -/
def pySplitextRoot (name : String) : String :=
  let cs := name.toList
  let afterDot := cs.reverse.takeWhile (fun c => c ≠ '.')
  if afterDot.length = cs.length then name
  else
    let root := (cs.reverse.drop (afterDot.length + 1)).reverse
    if root.all (fun c => c = '.') then name else String.mk root

/-- pre-commit.py detect_change_type, second rule:
re.search matches the pattern backslash-dot(test|spec)backslash-dot anywhere
in the path, so this is containment of ".test." or ".spec." in the whole path. -/
def matchesTestPattern (f : String) : Bool :=
  strContains f ".test." || strContains f ".spec."

/-- pre-commit.py detect_change_type, third rule:
re.match anchors the alternation docs-slash-or-README-or-CHANGELOG at the
start of the string, so each alternative is a prefix test on the whole path. -/
def matchesDocsPattern (f : String) : Bool :=
  strStartsWith f "docs/" || strStartsWith f "README" || strStartsWith f "CHANGELOG"

/-- pre-commit.py detect_change_type: first matching rule over the paths in
input order wins; "update" when no path matches any rule. -/
def detect_change_type : List String → String
  | [] => "update"
  | f :: rest =>
      if strStartsWith f "skills/" then "skill"
      else if matchesTestPattern f then "test"
      else if matchesDocsPattern f then "docs"
      else detect_change_type rest

/-- Whether some rule of detect_change_type matches a single path. -/
def ruleMatch (f : String) : Bool :=
  strStartsWith f "skills/" || matchesTestPattern f || matchesDocsPattern f

/-- Modelled from the claim C3 wording (not from the code): docs when the path
begins with docs/ or the path's filename, in any directory, is exactly README
or exactly CHANGELOG with any extension. -/
def docsRuleSpec (f : String) : Bool :=
  strStartsWith f "docs/" ||
    (let root := pySplitextRoot (pyBasename f)
     root == "README" || root == "CHANGELOG")

/-- Modelled from the claim C4 wording (not from the code): test when the
path's filename contains ".test." or ".spec.", occurrences inside directory
components not counting. -/
def testRuleSpec (f : String) : Bool :=
  strContains (pyBasename f) ".test." || strContains (pyBasename f) ".spec."

/-- C3: the claim reads the docs rule as an exact-filename test; the code's
re.match makes it a prefix test on the whole path, so src/README.md is not
classified docs while READMES.txt is. -/
theorem C3_counterexample :
    detect_change_type ["src/README.md"] = "update"
    ∧ docsRuleSpec "src/README.md" = true
    ∧ strStartsWith "src/README.md" "skills/" = false
    ∧ matchesTestPattern "src/README.md" = false
    ∧ detect_change_type ["READMES.txt"] = "docs"
    ∧ docsRuleSpec "READMES.txt" = false := by
  refine ⟨by decide, by decide, by decide, by decide, by decide, by decide⟩

/-- Helper: the value of detect_change_type on a one-path list, by unfolding. -/
theorem detect_change_type_single (f : String) :
    detect_change_type [f] =
      (if strStartsWith f "skills/" then "skill"
       else if matchesTestPattern f then "test"
       else if matchesDocsPattern f then "docs"
       else "update") := rfl

/-- C3 (amended): for a path matching neither the skill nor the test rule,
classify assigns docs exactly when the path starts with "docs/", "README" or
"CHANGELOG" (a prefix test on the whole path, not an exact-filename test);
hence src/README.md is not docs and READMES.txt is. -/
theorem C3_docs_rule : ∀ (f : String),
    (detect_change_type [f] = "docs" ↔
      (strStartsWith f "skills/" = false ∧ matchesTestPattern f = false ∧
        (strStartsWith f "docs/" = true ∨ strStartsWith f "README" = true ∨
          strStartsWith f "CHANGELOG" = true)))
    ∧ detect_change_type ["src/README.md"] = "update"
    ∧ detect_change_type ["READMES.txt"] = "docs" := by
  intro f
  refine ⟨?_, by decide, by decide⟩
  rw [detect_change_type_single]
  cases hs : strStartsWith f "skills/" <;>
    cases ht : matchesTestPattern f <;>
      cases hd : matchesDocsPattern f <;>
        simp only [if_true, if_false, Bool.false_eq_true, Bool.true_eq_false] <;>
          (simp_all [matchesDocsPattern, Bool.or_eq_true]; all_goals tauto)

/-- C4: the claim reads the test rule as a filename-only test; the code's
re.search scans the whole path, so a ".test." inside a directory component
classifies the path as test. -/
theorem C4_counterexample :
    detect_change_type ["a.test.dir/file.txt"] = "test"
    ∧ testRuleSpec "a.test.dir/file.txt" = false
    ∧ strStartsWith "a.test.dir/file.txt" "skills/" = false := by
  refine ⟨by decide, by decide, by decide⟩

/-- C4 (amended): for a path not matching the skill rule, classify assigns
test exactly when the whole path contains the substring ".test." or ".spec."
anywhere, directory components included. -/
theorem C4_test_rule : ∀ (f : String),
    (detect_change_type [f] = "test" ↔
      (strStartsWith f "skills/" = false ∧
        (strContains f ".test." = true ∨ strContains f ".spec." = true)))
    ∧ detect_change_type ["a.test.dir/file.txt"] = "test" := by
  intro f
  refine ⟨?_, by decide⟩
  rw [detect_change_type_single]
  cases hs : strStartsWith f "skills/" <;>
    cases ht : matchesTestPattern f <;>
      cases hd : matchesDocsPattern f <;>
        simp only [if_true, if_false, Bool.false_eq_true, Bool.true_eq_false] <;>
          simp_all [matchesTestPattern, Bool.or_eq_true]

/-- Helper for C5: a list of paths none of which matches a rule classifies
as update. -/
theorem detect_no_match_update : ∀ (fs : List String),
    fs.all (fun g => !ruleMatch g) = true → detect_change_type fs = "update" := by
  intro fs
  induction fs with
  | nil => intro _; rfl
  | cons f rest ih =>
      intro h
      simp only [List.all_cons, Bool.and_eq_true] at h
      obtain ⟨hf, hrest⟩ := h
      simp only [ruleMatch, Bool.not_eq_true', Bool.or_eq_false_iff] at hf
      obtain ⟨⟨h1, h2⟩, h3⟩ := hf
      unfold detect_change_type
      rw [h1, h2, h3]
      simp only [if_false, Bool.false_eq_true]
      exact ih hrest

/-- C5: classify walks the paths in input order and returns at the first path
matching a rule, the rules tried in the order skill-path, test pattern, docs
pattern; skills/app.test.js is therefore skill, and a list in which no path
matches any rule, the empty list included, is update. -/
theorem C5_first_match_order : ∀ (f : String) (rest fs : List String),
    detect_change_type [] = "update"
    ∧ detect_change_type ["skills/app.test.js"] = "skill"
    ∧ detect_change_type (f :: rest) =
        (if strStartsWith f "skills/" then "skill"
         else if matchesTestPattern f then "test"
         else if matchesDocsPattern f then "docs"
         else detect_change_type rest)
    ∧ (fs.all (fun g => !ruleMatch g) = true → detect_change_type fs = "update") := by
  intro f rest fs
  exact ⟨rfl, by decide, rfl, detect_no_match_update fs⟩

/-- pre-commit.py generate_branch_name slug step:
re.sub removing every character outside a-z and 0-9 from the lower-cased text. -/
def slugify (s : String) : String :=
  String.mk ((s.toList.map Char.toLower).filter (fun c => c.isLower || c.isDigit))

/-- pre-commit.py generate_branch_name, the branch-prefix-absent path: slug
from the first changed file's basename without extension, else from the last
segment of its directory, else the literal "update"; Python's if/elif chain
falling through to the final update return is written here as nested
conditionals on emptiness. -/
def generateFromFiles (change_type : String) (changed_files : List String) (date_str : String) : String :=
  let first_file := match changed_files with | [] => "" | f :: _ => f
  if strIsEmpty first_file then change_type ++ "/" ++ date_str ++ "-update"
  else
    let dirname := pyDirname first_file
    let filename := pySplitextRoot (pyBasename first_file)
    let dirname_slug := if strIsEmpty dirname then "" else slugify ((pySplitChar '/' dirname).getLastD "")
    let filename_slug := if strIsEmpty filename then "" else slugify filename
    if strIsEmpty filename_slug then
      (if strIsEmpty dirname_slug then change_type ++ "/" ++ date_str ++ "-update"
       else change_type ++ "/" ++ date_str ++ "-" ++ dirname_slug)
    else change_type ++ "/" ++ date_str ++ "-" ++ filename_slug

/-- pre-commit.py generate_branch_name: a truthy (non-None, non-empty) branch
prefix argument is returned verbatim; the date is a parameter here, standing
for datetime.now().strftime of YYYYMMDD. -/
def generate_branch_name (change_type : String) (changed_files : List String)
    (branchOverride : Option String) (date_str : String) : String :=
  match branchOverride with
  | some p => if strIsEmpty p then generateFromFiles change_type changed_files date_str else p
  | none => generateFromFiles change_type changed_files date_str

/-- Modelled from the claim C6 and spec wording (not from the code): the slug
preference order filenameSlug, then dirnameSlug, then the literal update. -/
def slugFromSpecWords : List String → String
  | [] => "update"
  | f :: _ =>
      let fileSlug := slugify (pySplitextRoot (pyBasename f))
      let dirSlug := slugify ((pySplitChar '/' (pyDirname f)).getLastD "")
      if strIsEmpty fileSlug then (if strIsEmpty dirSlug then "update" else dirSlug)
      else fileSlug

/-- Modelled from the claim C6 and spec wording (not from the code): a
non-empty explicit override is returned unmodified, otherwise the composed
name category/date-slug. -/
def generateFromSpecWords (category : String) (paths : List String)
    (explicitOverride : Option String) (today : String) : String :=
  match explicitOverride with
  | some p => if strIsEmpty p then category ++ "/" ++ today ++ "-" ++ slugFromSpecWords paths else p
  | none => category ++ "/" ++ today ++ "-" ++ slugFromSpecWords paths

/-- Helper: an empty string is the String.mk of the empty list. -/
theorem eq_empty_of_strIsEmpty (s : String) (h : strIsEmpty s = true) : s = "" := by
  cases s with
  | mk d =>
      cases d with
      | nil => rfl
      | cons c cs => simp [strIsEmpty, String.toList] at h

/-- Helper: slugify of the empty string is empty. -/
theorem slugify_empty_of (s : String) (h : strIsEmpty s = true) : slugify s = "" := by
  rw [eq_empty_of_strIsEmpty s h]; rfl

/-- Helper: the guard Python puts before slugifying is redundant. -/
theorem guarded_slug_eq (s : String) :
    (if strIsEmpty s then "" else slugify s) = slugify s := by
  by_cases h : strIsEmpty s = true
  · rw [if_pos h, slugify_empty_of s h]
  · rw [if_neg h]

/-- Helper: the guard before the dirname slug is likewise redundant. -/
theorem guarded_dir_slug_eq (d : String) :
    (if strIsEmpty d then "" else slugify ((pySplitChar '/' d).getLastD "")) =
      slugify ((pySplitChar '/' d).getLastD "") := by
  by_cases h : strIsEmpty d = true
  · rw [if_pos h, eq_empty_of_strIsEmpty d h]; rfl
  · rw [if_neg h]

/-- Helper: appending strings is associative. -/
theorem strAppendAssoc (a b c : String) : a ++ b ++ c = a ++ (b ++ c) := by
  cases a with
  | mk la =>
      cases b with
      | mk lb =>
          cases c with
          | mk lc =>
              show String.mk (la ++ lb ++ lc) = String.mk (la ++ (lb ++ lc))
              rw [List.append_assoc]

/-- Helper: the literal hyphen-update tail versus an appended "update" slug. -/
theorem dashUpdateAppend (x : String) : x ++ "-" ++ "update" = x ++ "-update" := by
  rw [strAppendAssoc]
  rw [show ("-" ++ "update" : String) = "-update" by decide]

/-- Helper: the override-absent path of generate_branch_name composes exactly
the spec's category/date-slug form. -/
theorem generateFromFiles_eq (ct date : String) (files : List String) :
    generateFromFiles ct files date = ct ++ "/" ++ date ++ "-" ++ slugFromSpecWords files := by
  cases files with
  | nil => rw [show slugFromSpecWords [] = "update" from rfl, dashUpdateAppend]; rfl
  | cons f rest =>
      by_cases hf : strIsEmpty f = true
      · rw [eq_empty_of_strIsEmpty f hf]
        rw [show slugFromSpecWords ("" :: rest) = "update" from rfl, dashUpdateAppend]
        rfl
      · show (if strIsEmpty f then _ else _) = _
        rw [if_neg hf]
        show (if strIsEmpty (if strIsEmpty (pySplitextRoot (pyBasename f)) then ""
                  else slugify (pySplitextRoot (pyBasename f))) then _ else _) = _
        rw [guarded_slug_eq, guarded_dir_slug_eq]
        show _ = ct ++ "/" ++ date ++ "-" ++
          (if strIsEmpty (slugify (pySplitextRoot (pyBasename f))) then
            (if strIsEmpty (slugify ((pySplitChar '/' (pyDirname f)).getLastD "")) then "update"
             else slugify ((pySplitChar '/' (pyDirname f)).getLastD ""))
           else slugify (pySplitextRoot (pyBasename f)))
        by_cases h1 : strIsEmpty (slugify (pySplitextRoot (pyBasename f))) = true
        · rw [if_pos h1, if_pos h1]
          by_cases h2 : strIsEmpty (slugify ((pySplitChar '/' (pyDirname f)).getLastD "")) = true
          · rw [if_pos h2, if_pos h2]
            exact (dashUpdateAppend (ct ++ "/" ++ date)).symm
          · rw [if_neg h2, if_neg h2]
        · rw [if_neg h1, if_neg h1]

/-- C6: generate returns a non-empty override verbatim, and otherwise composes
category/YYYYMMDD-slug with the slug preference filename slug, then directory
segment slug, then the literal update (also for the empty path list); stated
as agreement with the definition transcribed from the spec's words, plus the
spec's own worked examples. -/
theorem C6_generate_branch_name : ∀ (ct today : String) (files : List String) (ov : Option String),
    generate_branch_name ct files ov today = generateFromSpecWords ct files ov today
    ∧ (∀ p : String, strIsEmpty p = false → generate_branch_name ct files (some p) today = p)
    ∧ generate_branch_name "skill" ["skills/foo/bar.txt"] none "20260101" = "skill/20260101-bar"
    ∧ generate_branch_name "docs" ["docs/"] none "20260101" = "docs/20260101-docs"
    ∧ generate_branch_name ct [] none today = ct ++ "/" ++ today ++ "-update" := by
  intro ct today files ov
  refine ⟨?_, ?_, by decide, by decide, rfl⟩
  · cases ov with
    | none => exact generateFromFiles_eq ct today files
    | some p =>
        show (if strIsEmpty p then generateFromFiles ct files today else p) = _
        by_cases hp : strIsEmpty p = true
        · rw [if_pos hp]
          show _ = (if strIsEmpty p then _ else p)
          rw [if_pos hp]
          exact generateFromFiles_eq ct today files
        · rw [if_neg hp]
          show _ = (if strIsEmpty p then _ else p)
          rw [if_neg hp]
  · intro p hp
    show (if strIsEmpty p then generateFromFiles ct files today else p) = p
    rw [hp]
    simp

/-
Environment record: the stdout of each git command the scripts run, as the
raw text the process wrote (none models a command exiting non-zero, which
run_git_command surfaces as subprocess.CalledProcessError), plus the success
of the three commands whose output is not read.
-/

/-- Results of the external git commands for one run. -/
structure GitEnv where
  config_email : Option String
  config_signingkey : Option String
  branch_show_current : Option String
  branch_list : Option String
  rev_parse_short_head : Option String
  diff_name_only_out : Option String
  diff_cached_name_only_out : Option String
  ls_files_others_out : Option String
  diff_quiet_ok : Bool
  diff_cached_quiet_ok : Bool
  checkout_ok : Bool

/-- run_git_command: result.stdout.strip() on success, error propagated as none. -/
def runGit (out : Option String) : Option String := out.map pyStrip

/-- Shared parse of name-listing git output, appearing verbatim in git.py
diff_name_only and ls_files_others, pre-commit.py get_changed_files and
uncommitted-changes.py get_staged_files / get_unstaged_files /
get_untracked_files: stripped stdout split on newlines when non-empty, the
empty list when empty or when the command failed. -/
def nameOnlyParse (out : Option String) : List String :=
  match runGit out with
  | none => []
  | some r => if strIsEmpty r then [] else pySplitChar '\n' r

/-- pre-commit.py get_current_branch: None when the command fails. -/
def get_current_branch (env : GitEnv) : Option String := runGit env.branch_show_current

/-- pre-commit.py is_detached_head: true when git branch fails or prints
nothing, else true exactly when the output contains the detached marker. -/
def is_detached_head (env : GitEnv) : Bool :=
  match runGit env.branch_list with
  | none => true
  | some r => if strIsEmpty r then true else strContains r "(HEAD detached"

/-- pre-commit.py get_head_sha: the literal initial when git rev-parse fails
or prints nothing. -/
def get_head_sha (env : GitEnv) : String :=
  match runGit env.rev_parse_short_head with
  | none => "initial"
  | some r => if strIsEmpty r then "initial" else r

/-- pre-commit.py get_changed_files over git diff --name-only. -/
def get_changed_files (env : GitEnv) : List String :=
  nameOnlyParse env.diff_name_only_out

/-- pre-commit.py check_gpg_config reads: both reads sit in one try block, so
a failure of either leaves both fields as the empty string. -/
def signing_config (env : GitEnv) : String × String :=
  match runGit env.config_email, runGit env.config_signingkey with
  | some e, some k => (e, k)
  | _, _ => ("", "")

/-- pre-commit.py check_gpg_config exit condition: user.email or
user.signingkey empty. -/
def signing_missing (env : GitEnv) : Bool :=
  strIsEmpty (signing_config env).1 || strIsEmpty (signing_config env).2

/-- How one run of pre-commit.py terminates. checkoutFailed stands for the
CalledProcessError of git checkout -b escaping uncaught, which ends the
interpreter with exit status 1. -/
inductive Outcome where
  | signingNotConfigured
  | checkoutFailed
  | nothingToCommit
  | ready
deriving DecidableEq

/-- Process exit status of each terminal outcome: sys.exit(1), the uncaught
exception (Python exits 1), sys.exit(0), and falling off main (exit 0). -/
def exitCode : Outcome → Nat
  | .signingNotConfigured => 1
  | .checkoutFailed => 1
  | .nothingToCommit => 0
  | .ready => 0

/-- pre-commit.py check_changes: git diff --quiet and git diff --cached
--quiet; when both are quiet the script exits 0 with No changes to commit,
else it reports ready. -/
def check_changes_result (env : GitEnv) : Outcome :=
  if env.diff_quiet_ok && env.diff_cached_quiet_ok then .nothingToCommit else .ready

/-- pre-commit.py check_branch branch test: after substituting the short sha
for the branch label when detached, branch in (main, master) or detached. -/
def needs_new_branch (env : GitEnv) : Bool :=
  let detached := is_detached_head env
  let current := if detached then some (get_head_sha env) else get_current_branch env
  current == some "main" || current == some "master" || detached

/-- pre-commit.py main: check_gpg_config, then check_branch (which may run
git checkout -b with the generated name; the name itself does not influence
the outcome), then check_changes. -/
def pre_commit_main (env : GitEnv) (bp : Option String) (today : String) : Outcome :=
  if signing_missing env then .signingNotConfigured
  else if needs_new_branch env then
    let changed := (get_changed_files env).filter (fun f => !strIsEmpty f)
    let _branch_name := generate_branch_name (detect_change_type changed) changed bp today
    if env.checkout_ok then check_changes_result env else .checkoutFailed
  else check_changes_result env

/-- git.py Git.branch_list: stripped stdout, empty string on failure. -/
def Git.branch_list (env : GitEnv) : String := (runGit env.branch_list).getD ""

/-- git.py Git.is_detached_head over branch_list. -/
def Git.is_detached_head (env : GitEnv) : Bool :=
  let r := Git.branch_list env
  if strIsEmpty r then true else strContains r "(HEAD detached"

/-- git.py Git.diff_quiet: whether the selected diff command exited 0. -/
def Git.diff_quiet (env : GitEnv) (cached : Bool) : Bool :=
  if cached then env.diff_cached_quiet_ok else env.diff_quiet_ok

/-- git.py Git.has_changes: not (diff_quiet() and diff_quiet(cached=True)). -/
def Git.has_changes (env : GitEnv) : Bool :=
  !(Git.diff_quiet env false && Git.diff_quiet env true)

/-- git.py Git.diff_name_only: cached and diff_filter only select which diff
command runs; out is that command's stdout, parsed by the shared pattern. -/
def Git.diff_name_only (_cached : Bool) (_diff_filter : String) (out : Option String) : List String :=
  nameOnlyParse out

/-- git.py Git.ls_files_others over git ls-files --others --exclude-standard. -/
def Git.ls_files_others (out : Option String) : List String :=
  nameOnlyParse out

/-- uncommitted-changes.py get_unstaged_files (unfiltered). -/
def uc_get_unstaged_files (env : GitEnv) : List String :=
  nameOnlyParse env.diff_name_only_out

/-- uncommitted-changes.py get_staged_files (unfiltered). -/
def uc_get_staged_files (env : GitEnv) : List String :=
  nameOnlyParse env.diff_cached_name_only_out

/-- uncommitted-changes.py get_untracked_files. -/
def uc_get_untracked_files (env : GitEnv) : List String :=
  nameOnlyParse env.ls_files_others_out

/-- uncommitted-changes.py has_changes: bool(unstaged or staged or untracked),
counting untracked files, unlike git.py Git.has_changes. -/
def uc_has_changes (env : GitEnv) : Bool :=
  !(uc_get_unstaged_files env).isEmpty || !(uc_get_staged_files env).isEmpty ||
    !(uc_get_untracked_files env).isEmpty

/-- The same run with a different untracked-files listing. -/
def withUntracked (e : GitEnv) (u : Option String) : GitEnv :=
  ⟨e.config_email, e.config_signingkey, e.branch_show_current, e.branch_list,
   e.rev_parse_short_head, e.diff_name_only_out, e.diff_cached_name_only_out, u,
   e.diff_quiet_ok, e.diff_cached_quiet_ok, e.checkout_ok⟩

/-- The same run with a different branch-listing output. -/
def withBranchList (e : GitEnv) (b : Option String) : GitEnv :=
  ⟨e.config_email, e.config_signingkey, e.branch_show_current, b,
   e.rev_parse_short_head, e.diff_name_only_out, e.diff_cached_name_only_out,
   e.ls_files_others_out, e.diff_quiet_ok, e.diff_cached_quiet_ok, e.checkout_ok⟩

/-- The same run with a different unstaged-diff name listing. -/
def withUnstagedOut (e : GitEnv) (o : Option String) : GitEnv :=
  ⟨e.config_email, e.config_signingkey, e.branch_show_current, e.branch_list,
   e.rev_parse_short_head, o, e.diff_cached_name_only_out, e.ls_files_others_out,
   e.diff_quiet_ok, e.diff_cached_quiet_ok, e.checkout_ok⟩

/-- A run with signing configured, on main, with unstaged changes, in which
git checkout -b fails. -/
def envC1 : GitEnv :=
  ⟨some "dev@example.com", some "ABC123", some "main", some "* main", some "abc1234",
   some "file.txt", some "", some "", false, true, false⟩

/-- Helper: check_changes never exits non-zero. -/
theorem exitCode_check_changes (env : GitEnv) : exitCode (check_changes_result env) = 0 := by
  unfold check_changes_result
  by_cases h : (env.diff_quiet_ok && env.diff_cached_quiet_ok) = true
  · rw [if_pos h]; rfl
  · rw [if_neg h]; rfl

/-- Helper: check_changes ends in one of the two documented states. -/
theorem check_changes_result_cases (env : GitEnv) :
    check_changes_result env = Outcome.nothingToCommit ∨
      check_changes_result env = Outcome.ready := by
  unfold check_changes_result
  by_cases h : (env.diff_quiet_ok && env.diff_cached_quiet_ok) = true
  · rw [if_pos h]; exact Or.inl rfl
  · rw [if_neg h]; exact Or.inr rfl

/-- C1: the claim that exit status 1 happens only for missing signing
configuration fails: with signing configured, on main, a failing git checkout
-b raises an uncaught CalledProcessError and the process exits 1. -/
theorem C1_counterexample :
    exitCode (pre_commit_main envC1 none "20260101") = 1
    ∧ signing_missing envC1 = false
    ∧ needs_new_branch envC1 = true
    ∧ envC1.checkout_ok = false := by
  refine ⟨by decide, by decide, by decide, rfl⟩

/-- C1 (amended): the process exits 1 exactly when signing is not configured
(user.email or user.signingkey empty) or when the branch-creation command
fails on a run that needs a new branch; the Ready and NothingToCommit
outcomes, and every run reaching check_changes, exit 0. -/
theorem C1_exit_codes : ∀ (env : GitEnv) (bp : Option String) (today : String),
    (exitCode (pre_commit_main env bp today) = 1 ↔
      (signing_missing env = true ∨
        (signing_missing env = false ∧ needs_new_branch env = true ∧
          env.checkout_ok = false)))
    ∧ (pre_commit_main env bp today = Outcome.signingNotConfigured ∨
        pre_commit_main env bp today = Outcome.checkoutFailed ∨
        pre_commit_main env bp today = Outcome.nothingToCommit ∨
        pre_commit_main env bp today = Outcome.ready)
    ∧ exitCode (check_changes_result env) = 0 := by
  intro env bp today
  refine ⟨?_, ?_, exitCode_check_changes env⟩
  · unfold pre_commit_main
    rcases check_changes_result_cases env with hcc | hcc <;>
      by_cases hs : signing_missing env = true <;>
        by_cases hb : needs_new_branch env = true <;>
          by_cases hc : env.checkout_ok = true <;>
            simp_all [exitCode]
  · unfold pre_commit_main
    rcases check_changes_result_cases env with hcc | hcc <;>
      by_cases hs : signing_missing env = true <;>
        by_cases hb : needs_new_branch env = true <;>
          by_cases hc : env.checkout_ok = true <;>
            simp_all

/-- C2: git.py has_changes is true exactly when the staged or the unstaged
diff is non-quiet; untracked files influence neither it nor the workflow's
check_changes step (which reports NothingToCommit, exit 0, whenever both
diffs are quiet); the uncommitted-changes report's has_changes, by contrast,
counts untracked files as changes. -/
theorem C2_has_changes : ∀ (env : GitEnv) (u : Option String),
    (Git.has_changes env = true ↔
      (Git.diff_quiet env false = false ∨ Git.diff_quiet env true = false))
    ∧ Git.has_changes (withUntracked env u) = Git.has_changes env
    ∧ ((env.diff_quiet_ok = true ∧ env.diff_cached_quiet_ok = true) →
        (check_changes_result env = Outcome.nothingToCommit ∧
          exitCode (check_changes_result env) = 0))
    ∧ check_changes_result (withUntracked env u) = check_changes_result env
    ∧ ((uc_get_untracked_files env).isEmpty = false → uc_has_changes env = true) := by
  intro env u
  refine ⟨?_, rfl, ?_, rfl, ?_⟩
  · unfold Git.has_changes Git.diff_quiet
    cases env.diff_quiet_ok <;> cases env.diff_cached_quiet_ok <;> simp
  · intro h
    unfold check_changes_result
    rw [h.1, h.2]
    exact ⟨rfl, rfl⟩
  · intro h
    unfold uc_has_changes
    rw [h]
    simp

/-- Helper: Python single-character split never returns the empty list. -/
theorem pySplitCharAux_ne_nil (sep : Char) (cs : List Char) : ∀ (acc : List Char),
    pySplitCharAux sep cs acc ≠ [] := by
  induction cs with
  | nil => intro acc; simp [pySplitCharAux]
  | cons c rest ih =>
      intro acc
      unfold pySplitCharAux
      by_cases h : c = sep
      · simp [h]
      · rw [if_neg h]
        exact ih (c :: acc)

/-- Helper: a singleton result of the split carries the whole remaining text. -/
theorem pySplitCharAux_singleton (sep : Char) (cs : List Char) : ∀ (acc : List Char) (s : String),
    pySplitCharAux sep cs acc = [s] → s = String.mk (acc.reverse ++ cs) := by
  induction cs with
  | nil =>
      intro acc s h
      simp only [pySplitCharAux] at h
      simp only [List.cons.injEq, and_true] at h
      subst h
      rw [List.append_nil]
  | cons c rest ih =>
      intro acc s h
      unfold pySplitCharAux at h
      by_cases hc : c = sep
      · rw [if_pos hc] at h
        cases h' : pySplitCharAux sep rest [] with
        | nil => exact absurd h' (pySplitCharAux_ne_nil sep rest [])
        | cons a as => rw [h'] at h; simp at h
      · rw [if_neg hc] at h
        have hmk := ih (c :: acc) s h
        rw [hmk]
        simp [List.reverse_cons, List.append_assoc]

/-- Helper: the shared name-listing parse never yields a lone empty string. -/
theorem nameOnlyParse_ne_single_empty (out : Option String) : nameOnlyParse out ≠ [""] := by
  unfold nameOnlyParse
  cases h : runGit out with
  | none => simp
  | some r =>
      by_cases he : strIsEmpty r = true
      · simp [he]
      · show (if strIsEmpty r = true then [] else pySplitChar '\n' r) ≠ [""]
        rw [if_neg he]
        intro heq
        have h1 : ("" : String) = String.mk (([] : List Char).reverse ++ r.toList) :=
          pySplitCharAux_singleton '\n' r.toList [] "" heq
        have h2 : r.toList = [] := by
          have h3 := congrArg String.toList h1
          simpa using h3.symm
        exact he (by simp [strIsEmpty]; exact h2)

/-- C7: from empty command output the name listings are the empty sequence,
and no command output at all can produce the one-element sequence holding the
empty string. -/
theorem C7_empty_output : ∀ (cached : Bool) (fil : String) (out : Option String) (env : GitEnv),
    Git.diff_name_only cached fil (some "") = []
    ∧ Git.ls_files_others (some "") = []
    ∧ get_changed_files (withUnstagedOut env (some "")) = []
    ∧ Git.diff_name_only cached fil out ≠ [""]
    ∧ Git.ls_files_others out ≠ [""]
    ∧ get_changed_files env ≠ [""] := by
  intro cached fil out env
  exact ⟨rfl, rfl, rfl, nameOnlyParse_ne_single_empty out, nameOnlyParse_ne_single_empty out,
    nameOnlyParse_ne_single_empty env.diff_name_only_out⟩

/-- C8: is_detached_head is true exactly when the branch listing is empty
(an empty repository with no branches included) or contains the marker
"(HEAD detached"; the pre-commit script's copy agrees with git.py's. -/
theorem C8_is_detached_head : ∀ (env : GitEnv),
    (Git.is_detached_head env = true ↔
      (strIsEmpty (Git.branch_list env) = true ∨
        strContains (Git.branch_list env) "(HEAD detached" = true))
    ∧ is_detached_head env = Git.is_detached_head env
    ∧ Git.is_detached_head (withBranchList env (some "")) = true := by
  intro env
  refine ⟨?_, ?_, rfl⟩
  · unfold Git.is_detached_head
    by_cases he : strIsEmpty (Git.branch_list env) = true
    · simp [he]
    · simp [he]
  · unfold is_detached_head Git.is_detached_head Git.branch_list
    cases h : runGit env.branch_list with
    | none => rfl
    | some r => rfl

/-
stats.py: the cost/usage parser. Python float() is modelled exactly at the
level the claims need: literal parsing (whitespace, sign, inf / infinity /
nan keywords case-insensitively, decimal literals with optional fraction,
exponent and between-digit underscores), with finite values kept as exact
rationals. IEEE rounding of finite values is not modelled; what is modelled
exactly is the classification finite / infinite / invalid, including the
overflow of literals at or beyond the double rounding-to-infinity threshold
2^1024 - 2^970, and the int() conversion errors: ValueError for NaN (caught
by the code) and OverflowError for infinities (not caught).
-/

/-- Python exceptions the stats parser can meet. -/
inductive PyExc where
  | valueError
  | overflowError
deriving DecidableEq

/-- Value classes of a Python float; a finite value is kept exactly as
mant times ten to the exp10. -/
inductive PyFloat where
  | finite (mant : ℤ) (exp10 : ℤ)
  | infinite (neg : Bool)
  | nan
deriving DecidableEq

/-- Powers of ten by plain recursion. -/
def tenPow : ℕ → ℕ
  | 0 => 1
  | n + 1 => 10 * tenPow n

/-- Powers of two by plain recursion. -/
def twoPow : ℕ → ℕ
  | 0 => 1
  | n + 1 => 2 * twoPow n

/-- Exact magnitude from which round-to-nearest-even carries a value to the
double infinity: 2^1024 - 2^970, written as the integer 2^970 * (2^54 - 1). -/
def ovfNum : ℕ := twoPow 970 * (twoPow 54 - 1)

/-- Whether the exact value mant times ten to the exp10 reaches the double
rounding-to-infinity threshold in magnitude. -/
def floatOverflows (mant exp10 : ℤ) : Bool :=
  decide (ovfNum * tenPow (-exp10).toNat ≤ mant.natAbs * tenPow exp10.toNat)

/-- Whether a float value is one of the two infinities. -/
def PyFloat.isInf : PyFloat → Bool
  | .infinite _ => true
  | _ => false

/-- CPython float literal underscore rule: every underscore sits between two
digits; prev is the character before the current position. -/
def underscoresOkAux : Option Char → List Char → Bool
  | _, [] => true
  | prev, c :: rest =>
      if c = '_' then
        (match prev with | some p => p.isDigit | none => false)
          && (match rest with | d :: _ => d.isDigit | [] => false)
          && underscoresOkAux (some c) rest
      else underscoresOkAux (some c) rest

/-- Numeric value of a run of decimal digits. -/
def digitsVal (ds : List Char) : ℕ :=
  ds.foldl (fun n c => 10 * n + (c.toNat - 48)) 0

/-- Exponent part of a float literal: empty, or e/E, optional sign, digits
consuming the whole remainder. -/
def parseExpPart : List Char → Option ℤ
  | [] => some 0
  | e :: rest =>
      if e = 'e' || e = 'E' then
        let signedRest : Bool × List Char :=
          match rest with
          | '+' :: t => (false, t)
          | '-' :: t => (true, t)
          | _ => (false, rest)
        let ed := signedRest.2.takeWhile Char.isDigit
        let r3 := signedRest.2.dropWhile Char.isDigit
        if ed.isEmpty || !r3.isEmpty then none
        else some (if signedRest.1 then -(digitsVal ed : ℤ) else (digitsVal ed : ℤ))
      else none

/-- Unsigned numeric float literal without underscores: integer digits,
optional dot and fraction digits (at least one digit in total), optional
exponent; exact value as mantissa and power-of-ten exponent. -/
def parseUnsigned (cs : List Char) : Option (ℕ × ℤ) :=
  let ip := cs.takeWhile Char.isDigit
  let r1 := cs.dropWhile Char.isDigit
  let fpr : List Char × List Char :=
    match r1 with
    | '.' :: rest => (rest.takeWhile Char.isDigit, rest.dropWhile Char.isDigit)
    | _ => ([], r1)
  if ip.isEmpty && fpr.1.isEmpty then none
  else
    match parseExpPart fpr.2 with
    | none => none
    | some e =>
        some (digitsVal ip * tenPow fpr.1.length + digitsVal fpr.1, e - fpr.1.length)

/-- Python float(s): strip whitespace, optional sign, then the keywords inf,
infinity, nan case-insensitively, else a numeric literal (underscores checked
against the original text); none models ValueError, and a literal at or past
the double range is the infinity float() returns for it. -/
def pyFloatOfString (s : String) : Option PyFloat :=
  let cs := (pyStrip s).toList
  let signed : Bool × List Char :=
    match cs with
    | '+' :: t => (false, t)
    | '-' :: t => (true, t)
    | _ => (false, cs)
  let lower := signed.2.map Char.toLower
  if lower = "inf".toList || lower = "infinity".toList then some (.infinite signed.1)
  else if lower = "nan".toList then some .nan
  else if underscoresOkAux none signed.2 then
    match parseUnsigned (signed.2.filter (fun c => c ≠ '_')) with
    | none => none
    | some me =>
        let m : ℤ := if signed.1 then -(me.1 : ℤ) else (me.1 : ℤ)
        if floatOverflows m me.2 then some (.infinite signed.1) else some (.finite m me.2)
  else none

/-- Python int() truncation toward zero of the exact value mant times ten to
the exp10. -/
def truncTenPow (mant exp10 : ℤ) : ℤ :=
  if 0 ≤ exp10 then mant * (tenPow exp10.toNat : ℤ)
  else if 0 ≤ mant then Int.ofNat (mant.toNat / tenPow (-exp10).toNat)
  else - Int.ofNat ((-mant).toNat / tenPow (-exp10).toNat)

/-- Python int(x) on a float: truncation when finite, ValueError on NaN,
OverflowError on the infinities. -/
def pyIntOfFloat : PyFloat → Except PyExc ℤ
  | .finite m e => .ok (truncTenPow m e)
  | .infinite _ => .error .overflowError
  | .nan => .error .valueError

/-- Python float-times-int multiplication by a positive literal multiplier,
overflowing to an infinity at the double threshold. -/
def pyMulNat : PyFloat → ℕ → PyFloat
  | .finite m e, k =>
      if floatOverflows (m * (k : ℤ)) e then .infinite (decide (m * (k : ℤ) < 0))
      else .finite (m * (k : ℤ)) e
  | .infinite b, _ => .infinite b
  | .nan, _ => .nan

/-- Python s.replace(c, "") for a one-character pattern. -/
def pyRemoveChar (c : Char) (s : String) : String :=
  String.mk (s.toList.filter (fun d => d ≠ c))

/-- Python str.endswith. -/
def strEndsWith (s suf : String) : Bool :=
  charsStartWith s.toList.reverse suf.toList.reverse

/-- Python value[:-1]. -/
def strDropLast (s : String) : String :=
  String.mk s.toList.dropLast

/-- stats.py parse_token_value comma removal. -/
def tokenStripped (value : String) : String := pyRemoveChar ',' value

/-- stats.py parse_token_value multiplier from the M or K suffix. -/
def tokenMult (v1 : String) : ℕ :=
  if strEndsWith v1 "M" then 1000000 else if strEndsWith v1 "K" then 1000 else 1

/-- stats.py parse_token_value numeric text, suffix removed. -/
def tokenNum (v1 : String) : String :=
  if strEndsWith v1 "M" then strDropLast v1
  else if strEndsWith v1 "K" then strDropLast v1
  else v1

/-- stats.py Stats.parse_token_value: 0 for the empty string, comma removal,
M/K suffix multiplier, int(float(value) * multiplier) with only ValueError
caught (the except clause), so an OverflowError escapes. -/
def Stats.parse_token_value (value : String) : Except PyExc ℤ :=
  if strIsEmpty value then .ok 0
  else
    let v1 := tokenStripped value
    match pyFloatOfString (tokenNum v1) with
    | none => .ok 0
    | some f =>
        match pyIntOfFloat (pyMulNat f (tokenMult v1)) with
        | .ok n => .ok n
        | .error .valueError => .ok 0
        | .error .overflowError => .error .overflowError

/-- stats.py Stats.parse_cost_value: 0 for the empty string, dollar-sign
removal and strip, int(dollars * 100) with only ValueError caught. -/
def Stats.parse_cost_value (value : String) : Except PyExc ℤ :=
  if strIsEmpty value then .ok 0
  else
    match pyFloatOfString (pyStrip (pyRemoveChar '$' value)) with
    | none => .ok 0
    | some f =>
        match pyIntOfFloat (pyMulNat f 100) with
        | .ok n => .ok n
        | .error .valueError => .ok 0
        | .error .overflowError => .error .overflowError

/-- Whether parse_token_value's multiplied value lands on an infinity. -/
def tokenOverflows (value : String) : Bool :=
  match pyFloatOfString (tokenNum (tokenStripped value)) with
  | some f => (pyMulNat f (tokenMult (tokenStripped value))).isInf
  | none => false

/-- Whether parse_cost_value's multiplied value lands on an infinity. -/
def costOverflows (value : String) : Bool :=
  match pyFloatOfString (pyStrip (pyRemoveChar '$' value)) with
  | some f => (pyMulNat f 100).isInf
  | none => false

/-- The dictionary parse_stats builds: its exactly five integer fields. -/
structure StatsDict where
  total_cost_cents : ℤ
  input_tokens : ℤ
  output_tokens : ℤ
  cache_read : ℤ
  cache_write : ℤ
deriving DecidableEq

/-- stats.py parse_stats per-line cleaning: box-drawing characters removed,
then strip. -/
def cleanLine (line : String) : String :=
  pyStrip (pyRemoveChar '┤' (pyRemoveChar '├' (pyRemoveChar '│' line)))

/-- Python str.split() with no argument, worker: whitespace runs separate,
no empty pieces. -/
def splitWsAux : List Char → List Char → List String
  | [], acc => if acc.isEmpty then [] else [String.mk acc.reverse]
  | c :: rest, acc =>
      if isPyWs c then
        (if acc.isEmpty then splitWsAux rest []
         else String.mk acc.reverse :: splitWsAux rest [])
      else splitWsAux rest (c :: acc)

/-- Python str.split() with no argument. -/
def pySplitWs (s : String) : List String := splitWsAux s.toList []

/-- re.search of dollar-sign followed by one or more digits-or-dots: first
dollar sign followed by at least one such character wins, and the group is
the maximal run after it. -/
def findDollarNumber : List Char → Option String
  | [] => none
  | c :: rest =>
      if c = '$' then
        let run := rest.takeWhile (fun d => d.isDigit || d = '.')
        if run.isEmpty then findDollarNumber rest else some (String.mk run)
      else findDollarNumber rest

/-- stats.py parse_stats body for one line of output, threading the stats
dictionary; an uncaught exception from a value parser aborts the loop. -/
def parseStatsLine (st : StatsDict) (rawLine : String) : Except PyExc StatsDict :=
  let line := cleanLine rawLine
  if strIsEmpty line then .ok st
  else if strContains line "$" && strContains line "Total Cost" then
    match findDollarNumber line.toList with
    | some numText =>
        match Stats.parse_cost_value numText with
        | .ok v => .ok ⟨v, st.input_tokens, st.output_tokens, st.cache_read, st.cache_write⟩
        | .error e => .error e
    | none => .ok st
  else if strStartsWith line "Input " then
    let parts := pySplitWs line
    if 2 ≤ parts.length then
      match Stats.parse_token_value (parts.getD 1 "") with
      | .ok v => .ok ⟨st.total_cost_cents, v, st.output_tokens, st.cache_read, st.cache_write⟩
      | .error e => .error e
    else .ok st
  else if strStartsWith line "Output " then
    let parts := pySplitWs line
    if 2 ≤ parts.length then
      match Stats.parse_token_value (parts.getD 1 "") with
      | .ok v => .ok ⟨st.total_cost_cents, st.input_tokens, v, st.cache_read, st.cache_write⟩
      | .error e => .error e
    else .ok st
  else if strContains line "Cache Read" then
    let parts := pySplitWs line
    if parts.isEmpty then .ok st
    else
      match Stats.parse_token_value (parts.getLastD "") with
      | .ok v => .ok ⟨st.total_cost_cents, st.input_tokens, st.output_tokens, v, st.cache_write⟩
      | .error e => .error e
  else if strContains line "Cache Write" then
    let parts := pySplitWs line
    if parts.isEmpty then .ok st
    else
      match Stats.parse_token_value (parts.getLastD "") with
      | .ok v => .ok ⟨st.total_cost_cents, st.input_tokens, st.output_tokens, st.cache_read, v⟩
      | .error e => .error e
  else .ok st

/-- stats.py parse_stats loop over the split lines. -/
def parseStatsAux : StatsDict → List String → Except PyExc StatsDict
  | st, [] => .ok st
  | st, l :: rest =>
      match parseStatsLine st l with
      | .ok st2 => parseStatsAux st2 rest
      | .error e => .error e

/-- stats.py Stats.parse_stats: the five-field dictionary starts at zero and
each recognized line overwrites one field. -/
def Stats.parse_stats (output : String) : Except PyExc StatsDict :=
  parseStatsAux ⟨0, 0, 0, 0, 0⟩ (pySplitChar '\n' output)

/-- stats.py Stats.calculate_delta: all-zero when there is no previous entry,
else fieldwise difference (history entries carry all five keys here, so the
Python last.get(key, 0) reads are plain field reads). -/
def Stats.calculate_delta (current : StatsDict) (last : Option StatsDict) : StatsDict :=
  match last with
  | none => ⟨0, 0, 0, 0, 0⟩
  | some l =>
      ⟨current.total_cost_cents - l.total_cost_cents,
       current.input_tokens - l.input_tokens,
       current.output_tokens - l.output_tokens,
       current.cache_read - l.cache_read,
       current.cache_write - l.cache_write⟩

/-- C9: with no previous history entry of the same name, calculate_delta
returns the all-zero delta whatever the current stats are, not the current
values themselves; with a previous entry it returns fieldwise differences. -/
theorem C9_calculate_delta : ∀ (current other last : StatsDict),
    Stats.calculate_delta current none = StatsDict.mk 0 0 0 0 0
    ∧ Stats.calculate_delta current none = Stats.calculate_delta other none
    ∧ Stats.calculate_delta current (some last) =
        StatsDict.mk (current.total_cost_cents - last.total_cost_cents)
          (current.input_tokens - last.input_tokens)
          (current.output_tokens - last.output_tokens)
          (current.cache_read - last.cache_read)
          (current.cache_write - last.cache_write) := by
  intro current other last
  exact ⟨rfl, rfl, rfl⟩

/-- Helper: parse_token_value returns an integer or escapes with exactly an
OverflowError, never any other exception. -/
theorem parse_token_value_shape (s : String) :
    (∃ n : ℤ, Stats.parse_token_value s = .ok n) ∨
      Stats.parse_token_value s = .error .overflowError := by
  unfold Stats.parse_token_value
  by_cases h0 : strIsEmpty s = true
  · rw [if_pos h0]; exact Or.inl ⟨0, rfl⟩
  · rw [if_neg h0]
    cases hf : pyFloatOfString (tokenNum (tokenStripped s)) with
    | none => simp only [hf]; exact Or.inl ⟨0, rfl⟩
    | some f =>
        simp only [hf]
        cases hm : pyMulNat f (tokenMult (tokenStripped s)) with
        | finite m e => simp only [hm, pyIntOfFloat]; exact Or.inl ⟨truncTenPow m e, rfl⟩
        | infinite b => simp only [hm, pyIntOfFloat]; exact Or.inr trivial
        | nan => simp only [hm, pyIntOfFloat]; exact Or.inl ⟨0, rfl⟩

/-- Helper: parse_cost_value returns an integer or escapes with exactly an
OverflowError. -/
theorem parse_cost_value_shape (s : String) :
    (∃ n : ℤ, Stats.parse_cost_value s = .ok n) ∨
      Stats.parse_cost_value s = .error .overflowError := by
  unfold Stats.parse_cost_value
  by_cases h0 : strIsEmpty s = true
  · rw [if_pos h0]; exact Or.inl ⟨0, rfl⟩
  · rw [if_neg h0]
    cases hf : pyFloatOfString (pyStrip (pyRemoveChar '$' s)) with
    | none => simp only [hf]; exact Or.inl ⟨0, rfl⟩
    | some f =>
        simp only [hf]
        cases hm : pyMulNat f 100 with
        | finite m e => simp only [hm, pyIntOfFloat]; exact Or.inl ⟨truncTenPow m e, rfl⟩
        | infinite b => simp only [hm, pyIntOfFloat]; exact Or.inr trivial
        | nan => simp only [hm, pyIntOfFloat]; exact Or.inl ⟨0, rfl⟩

/-- Helper: parse_token_value raises exactly on an infinite multiplied value. -/
theorem parse_token_value_error_iff (s : String) :
    Stats.parse_token_value s = .error .overflowError ↔
      (strIsEmpty s = false ∧ tokenOverflows s = true) := by
  unfold Stats.parse_token_value tokenOverflows
  by_cases h0 : strIsEmpty s = true
  · rw [if_pos h0]; simp [h0]
  · rw [if_neg h0]
    have h0' : strIsEmpty s = false := by simpa using h0
    cases hf : pyFloatOfString (tokenNum (tokenStripped s)) with
    | none => simp [hf, h0']
    | some f =>
        simp only [hf]
        cases hm : pyMulNat f (tokenMult (tokenStripped s)) with
        | finite m e => simp [hm, pyIntOfFloat, PyFloat.isInf, h0']
        | infinite b => simp [hm, pyIntOfFloat, PyFloat.isInf, h0']
        | nan => simp [hm, pyIntOfFloat, PyFloat.isInf, h0']

/-- Helper: parse_cost_value raises exactly on an infinite multiplied value. -/
theorem parse_cost_value_error_iff (s : String) :
    Stats.parse_cost_value s = .error .overflowError ↔
      (strIsEmpty s = false ∧ costOverflows s = true) := by
  unfold Stats.parse_cost_value costOverflows
  by_cases h0 : strIsEmpty s = true
  · rw [if_pos h0]; simp [h0]
  · rw [if_neg h0]
    have h0' : strIsEmpty s = false := by simpa using h0
    cases hf : pyFloatOfString (pyStrip (pyRemoveChar '$' s)) with
    | none => simp [hf, h0']
    | some f =>
        simp only [hf]
        cases hm : pyMulNat f 100 with
        | finite m e => simp [hm, pyIntOfFloat, PyFloat.isInf, h0']
        | infinite b => simp [hm, pyIntOfFloat, PyFloat.isInf, h0']
        | nan => simp [hm, pyIntOfFloat, PyFloat.isInf, h0']

/-- Helper: an unparseable numeric part yields 0 (the caught ValueError). -/
theorem parse_token_value_unparseable (s : String)
    (h : pyFloatOfString (tokenNum (tokenStripped s)) = none) :
    Stats.parse_token_value s = .ok 0 := by
  unfold Stats.parse_token_value
  by_cases h0 : strIsEmpty s = true
  · rw [if_pos h0]
  · rw [if_neg h0]; simp only [h]

/-- Helper: each parse_stats line step returns a dictionary or escapes with
exactly an OverflowError. -/
theorem parseStatsLine_shape (st : StatsDict) (l : String) :
    (∃ d, parseStatsLine st l = .ok d) ∨
      parseStatsLine st l = .error .overflowError := by
  unfold parseStatsLine
  by_cases h1 : strIsEmpty (cleanLine l) = true
  · rw [if_pos h1]; exact Or.inl ⟨st, rfl⟩
  · rw [if_neg h1]
    by_cases h2 : (strContains (cleanLine l) "$" && strContains (cleanLine l) "Total Cost") = true
    · rw [if_pos h2]
      cases hd : findDollarNumber (cleanLine l).toList with
      | none => simp only [hd]; exact Or.inl ⟨st, rfl⟩
      | some numText =>
          simp only [hd]
          rcases parse_cost_value_shape numText with ⟨n, hn⟩ | hn
          · simp only [hn]; exact Or.inl ⟨_, rfl⟩
          · simp only [hn]; exact Or.inr trivial
    · rw [if_neg h2]
      by_cases h3 : strStartsWith (cleanLine l) "Input " = true
      · rw [if_pos h3]
        by_cases h3l : 2 ≤ (pySplitWs (cleanLine l)).length
        · rw [if_pos h3l]
          rcases parse_token_value_shape ((pySplitWs (cleanLine l)).getD 1 "") with ⟨n, hn⟩ | hn
          · simp only [hn]; exact Or.inl ⟨_, rfl⟩
          · simp only [hn]; exact Or.inr trivial
        · rw [if_neg h3l]; exact Or.inl ⟨st, rfl⟩
      · rw [if_neg h3]
        by_cases h4 : strStartsWith (cleanLine l) "Output " = true
        · rw [if_pos h4]
          by_cases h4l : 2 ≤ (pySplitWs (cleanLine l)).length
          · rw [if_pos h4l]
            rcases parse_token_value_shape ((pySplitWs (cleanLine l)).getD 1 "") with ⟨n, hn⟩ | hn
            · simp only [hn]; exact Or.inl ⟨_, rfl⟩
            · simp only [hn]; exact Or.inr trivial
          · rw [if_neg h4l]; exact Or.inl ⟨st, rfl⟩
        · rw [if_neg h4]
          by_cases h5 : strContains (cleanLine l) "Cache Read" = true
          · rw [if_pos h5]
            by_cases h5l : (pySplitWs (cleanLine l)).isEmpty = true
            · rw [if_pos h5l]; exact Or.inl ⟨st, rfl⟩
            · rw [if_neg h5l]
              rcases parse_token_value_shape ((pySplitWs (cleanLine l)).getLastD "") with ⟨n, hn⟩ | hn
              · simp only [hn]; exact Or.inl ⟨_, rfl⟩
              · simp only [hn]; exact Or.inr trivial
          · rw [if_neg h5]
            by_cases h6 : strContains (cleanLine l) "Cache Write" = true
            · rw [if_pos h6]
              by_cases h6l : (pySplitWs (cleanLine l)).isEmpty = true
              · rw [if_pos h6l]; exact Or.inl ⟨st, rfl⟩
              · rw [if_neg h6l]
                rcases parse_token_value_shape ((pySplitWs (cleanLine l)).getLastD "") with ⟨n, hn⟩ | hn
                · simp only [hn]; exact Or.inl ⟨_, rfl⟩
                · simp only [hn]; exact Or.inr trivial
            · rw [if_neg h6]; exact Or.inl ⟨st, rfl⟩

/-- Helper: the parse_stats loop returns a dictionary or escapes with exactly
an OverflowError. -/
theorem parseStatsAux_shape (ls : List String) : ∀ (st : StatsDict),
    (∃ d, parseStatsAux st ls = .ok d) ∨
      parseStatsAux st ls = .error .overflowError := by
  induction ls with
  | nil => intro st; exact Or.inl ⟨st, rfl⟩
  | cons l rest ih =>
      intro st
      unfold parseStatsAux
      rcases parseStatsLine_shape st l with ⟨d, hd⟩ | hd
      · simp only [hd]; exact ih d
      · simp only [hd]; exact Or.inr trivial

set_option maxRecDepth 20000 in
set_option maxHeartbeats 1000000 in
/-- C10: the totality claim fails: float("inf") is the double infinity and
int() of an infinity raises OverflowError, which the except ValueError clause
does not catch; parse_token_value("inf"), parse_cost_value("$inf") and the
overflowing literal parse_token_value("1e400") all escape with it. -/
theorem C10_counterexample :
    Stats.parse_token_value "inf" = .error .overflowError
    ∧ Stats.parse_cost_value "$inf" = .error .overflowError
    ∧ Stats.parse_token_value "1e400" = .error .overflowError := by
  exact ⟨rfl, rfl, rfl⟩

/-- C10 (amended): parse_token_value and parse_cost_value return an integer
for every input except those whose numeric part parses to an infinite float
after suffix multiplication (inf, infinity, literals at or past the double
range, with optional sign), where an uncaught OverflowError escapes; they
return 0 for empty, unparseable and NaN input, and parse_stats accordingly
returns the five-integer-field dictionary or propagates that OverflowError,
never any other exception. -/
theorem C10_parse_totality : ∀ (s out : String),
    ((∃ n : ℤ, Stats.parse_token_value s = .ok n) ∨
      Stats.parse_token_value s = .error .overflowError)
    ∧ ((∃ n : ℤ, Stats.parse_cost_value s = .ok n) ∨
      Stats.parse_cost_value s = .error .overflowError)
    ∧ Stats.parse_token_value "" = .ok 0
    ∧ Stats.parse_cost_value "" = .ok 0
    ∧ Stats.parse_token_value "nan" = .ok 0
    ∧ (pyFloatOfString (tokenNum (tokenStripped s)) = none →
        Stats.parse_token_value s = .ok 0)
    ∧ (Stats.parse_token_value s = .error .overflowError ↔
        (strIsEmpty s = false ∧ tokenOverflows s = true))
    ∧ (Stats.parse_cost_value s = .error .overflowError ↔
        (strIsEmpty s = false ∧ costOverflows s = true))
    ∧ ((∃ d, Stats.parse_stats out = .ok d) ∨
        Stats.parse_stats out = .error .overflowError) := by
  intro s out
  exact ⟨parse_token_value_shape s, parse_cost_value_shape s, rfl, rfl, rfl,
    parse_token_value_unparseable s, parse_token_value_error_iff s,
    parse_cost_value_error_iff s, parseStatsAux_shape (pySplitChar '\n' out) ⟨0, 0, 0, 0, 0⟩⟩
